import Mathlib

/-
Verification development for the AI-ASSISTANT-CHATBOT repository (src/main.py).

The file shallowly embeds the pieces of main.py that the documented properties
talk about:
  * the casual-query classifier (lines 63-65),
  * the dispatch function `chatbot` (lines 52-84), with the two external
    providers (web search and the Sonar completion endpoint) passed in as
    oracles that either return a string or raise (modelled with Except),
  * the completion client `call_sonar_api` (lines 34-49), with the HTTP
    transport passed in as an oracle,
  * the langgraph wiring (lines 28-31, 86-89, 133-136),
  * the Streamlit turn handler (lines 123-149).

External calls are modelled by explicit oracle arguments, and each embedded
function additionally returns the trace of provider calls it made, so that
"never invokes the Search Provider" style properties are statable.
-/

namespace AIChat

/-- Charwise lowercase map, the model of the Python method lower() used on
line 65 of main.py (ASCII inputs; written over the character list so that it
evaluates by kernel reduction). -/
def pyLower (s : String) : String := ⟨s.data.map Char.toLower⟩

/-- Bool test that the first list is a prefix of the second. -/
def startsWithList : List Char → List Char → Bool
  | [], _ => true
  | _ :: _, [] => false
  | a :: as, b :: bs => a == b && startsWithList as bs

/-- Bool test that the first list occurs as a contiguous sublist of the
second: the model of the Python expression word in text (line 65). -/
def isSubstringOf : List Char → List Char → Bool
  | needle, [] => needle.isEmpty
  | needle, c :: rest => startsWithList needle (c :: rest) || isSubstringOf needle rest

/-- Python needle in hay on strings. -/
def strIn (needle hay : String) : Bool := isSubstringOf needle.data hay.data

/-- The apostrophe character (code point 39), used by one keyword literal. -/
def apostrophe : Char := Char.ofNat 39

/-- The fourth keyword of line 64 of main.py: what, apostrophe, s up. -/
def whats_up : String := "what" ++ String.singleton apostrophe ++ "s up"

/-- casual_keywords from line 64 of main.py. -/
def casual_keywords : List String :=
  ["hi", "hello", "how are you", whats_up, "hey", "joke", "python"]

/-- is_casual from line 65 of main.py: any casual keyword occurs in the
lowercased user question. -/
def is_casual (user_question : String) : Bool :=
  casual_keywords.any (fun word => strIn word (pyLower user_question))

/-- A chat-history entry, as the Python code can observe it: a langchain
HumanMessage, a langchain AIMessage, a plain dict of string fields, or any
other value (carried as its str() image). -/
inductive Msg
  | human (content : String)
  | ai (content : String)
  | dict (fields : List (String × String))
  | other (s : String)

/-- The dict written for a user turn (line 125 / line 134 of main.py). -/
def userDict (content : String) : Msg := Msg.dict [("role", "user"), ("content", content)]

/-- The dict written for an assistant turn (lines 83-84, 145, 149). -/
def assistantDict (content : String) : Msg :=
  Msg.dict [("role", "assistant"), ("content", content)]

/-- Abstraction of Python str() on a message-like value. Only the clause for
values already carried as their string image is observable by the properties
below; object renderings are kept abstract. -/
def pyStr : Msg → String
  | Msg.human c => "content=" ++ c
  | Msg.ai c => "content=" ++ c
  | Msg.dict fields =>
      String.intercalate ", " (fields.map (fun kv => kv.1 ++ ": " ++ kv.2))
  | Msg.other s => s

/-- Lines 56-61 of main.py: extract the user text from the latest message.
A HumanMessage yields its content, a dict yields its content field (empty
string when absent), anything else goes through str(). -/
def extractUserText : Msg → String
  | Msg.human c => c
  | Msg.dict fields => (fields.lookup "content").getD ""
  | Msg.ai c => pyStr (Msg.ai c)
  | Msg.other s => pyStr (Msg.other s)

/-- A call made to one of the two external providers, recorded in order. -/
inductive ProviderCall
  | searchCall (query : String)
  | sonarCall (prompt : String)

/-- Outcome of an external provider call: a returned string, or a raised
exception identified by its message (what str(e) would show). -/
abbrev Provider := String → Except String String

/-- Message of the IndexError raised by list[-1] on an empty Python list. -/
def indexErrorMsg : String := "list index out of range"

/-- The f-string SYSTEM_PROMPT of lines 73-79 of main.py. -/
def SYSTEM_PROMPT (search_result user_question : String) : String :=
  "You are an Expert Web Research Assistant.\n\nSEARCH RESULTS: " ++ search_result ++
    "\n\nUSER QUESTION: " ++ user_question ++
    "\n\nProvide a well-structured, informative response based on the search results."

/-- Lines 52-84 of main.py: the dispatch function. Takes the message list of
the state, the search_enabled argument, and the two provider oracles; returns
the trace of provider calls together with either a raised exception or the
pair (state messages after the in-place append of line 83, returned update of
line 84). -/
def chatbot (messages : List Msg) (search_enabled : Bool)
    (searchProvider sonar : Provider) :
    List ProviderCall × Except String (List Msg × List Msg) :=
  match messages.getLast? with
  | none => ([], Except.error indexErrorMsg)
  | some last_message =>
    let user_question := extractUserText last_message
    if is_casual user_question || !search_enabled then
      match sonar user_question with
      | Except.error e => ([ProviderCall.sonarCall user_question], Except.error e)
      | Except.ok response_text =>
          ([ProviderCall.sonarCall user_question],
           Except.ok (messages ++ [assistantDict response_text],
                      [assistantDict response_text]))
    else
      match searchProvider user_question with
      | Except.error e => ([ProviderCall.searchCall user_question], Except.error e)
      | Except.ok search_result =>
        let prompt := SYSTEM_PROMPT search_result user_question
        match sonar prompt with
        | Except.error e =>
            ([ProviderCall.searchCall user_question, ProviderCall.sonarCall prompt],
             Except.error e)
        | Except.ok response_text =>
            ([ProviderCall.searchCall user_question, ProviderCall.sonarCall prompt],
             Except.ok (messages ++ [assistantDict response_text],
                        [assistantDict response_text]))

/-- The coercion the add_messages reducer (line 29 of main.py) applies to each
entry it merges: plain dicts become langchain message objects according to
their role field; message objects pass through. -/
def coerceMsg : Msg → Msg
  | Msg.dict fields =>
      if ((fields.lookup "role").getD "") == "assistant" then
        Msg.ai ((fields.lookup "content").getD "")
      else
        Msg.human ((fields.lookup "content").getD "")
  | m => m

/-- Lines 133-136 of main.py: graph.invoke on the compiled one-node graph.
The State schema (lines 28-29) declares only the messages channel, so
langgraph input mapping keeps the messages key of the input dict and ignores
the extra search_enabled key (map_input logs a warning for unknown channels
and drops them); the node callable is then invoked with the state alone, so
the chatbot parameter search_enabled keeps its Python default True. The
input message dict is coerced by add_messages when written into the channel,
and the update returned by the node is merged by add_messages onto the channel
value (which the node mutated in place), each entry coerced, with fresh
message ids, hence a plain concatenation. -/
def graph_invoke (user_input : String) (search_enabled : Bool)
    (searchProvider sonar : Provider) :
    List ProviderCall × Except String (List Msg) :=
  let initial := [coerceMsg (userDict user_input)]
  let r := chatbot initial true searchProvider sonar
  (r.1, r.2.map (fun p => p.1.map coerceMsg ++ p.2.map coerceMsg))

/-- Lines 138-143 of main.py: read the response text from the last result
message. An AIMessage yields its content; a dict yields its content field with
default str() of itself; any other value has no get attribute and raises. -/
def read_ai_response : Msg → Except String String
  | Msg.ai c => Except.ok c
  | Msg.dict fields =>
      Except.ok ((fields.lookup "content").getD (pyStr (Msg.dict fields)))
  | Msg.human c => Except.error ("AttributeError: " ++ pyStr (Msg.human c))
  | Msg.other s => Except.error ("AttributeError: " ++ pyStr (Msg.other s))

/-- The fixed text of line 147 of main.py in front of str(e). -/
def errorBanner : String := "Sorry, I encountered an error: "

/-- Lines 123-149 of main.py: one chat turn. The user dict is appended to the
session history, the graph is invoked, and either the extracted response or
the error banner string is appended as the assistant entry; the try/except
spans the whole generation block, so no exception escapes the turn. Returns
the provider-call trace and the new session history. -/
def turn_handler (history : List Msg) (user_input : String) (search_enabled : Bool)
    (searchProvider sonar : Provider) : List ProviderCall × List Msg :=
  let h1 := history ++ [userDict user_input]
  let r := graph_invoke user_input search_enabled searchProvider sonar
  match r.2 with
  | Except.ok msgs =>
    match msgs.getLast? with
    | none => (r.1, h1 ++ [assistantDict (errorBanner ++ indexErrorMsg)])
    | some m =>
      match read_ai_response m with
      | Except.ok resp => (r.1, h1 ++ [assistantDict resp])
      | Except.error e => (r.1, h1 ++ [assistantDict (errorBanner ++ e)])
  | Except.error e => (r.1, h1 ++ [assistantDict (errorBanner ++ e)])

/-- Minimal JSON value model for the completion endpoint response body. -/
inductive Json
  | str (s : String)
  | num (q : ℚ)
  | arr (elems : List Json)
  | obj (fields : List (String × Json))

/-- Field access on a JSON object, raising like Python subscription would. -/
def jsonField (j : Json) (key : String) : Except String Json :=
  match j with
  | Json.obj fields =>
    match fields.lookup key with
    | some v => Except.ok v
    | none => Except.error ("KeyError: " ++ key)
  | _ => Except.error "TypeError: value is not an object"

/-- Index access on a JSON array, raising like Python subscription would. -/
def jsonIndex (j : Json) (i : Nat) : Except String Json :=
  match j with
  | Json.arr elems =>
    match elems[i]? with
    | some v => Except.ok v
    | none => Except.error ("IndexError: " ++ indexErrorMsg)
  | _ => Except.error "TypeError: value is not an array"

/-- Coercion of a JSON leaf to the string the code returns. -/
def jsonString : Json → Except String String
  | Json.str s => Except.ok s
  | _ => Except.error "TypeError: value is not a string"

/-- One entry of the messages field of the request body (line 43). -/
structure SonarMsg where
  role : String
  content : String

/-- The JSON request body built on lines 41-46 of main.py. -/
structure SonarBody where
  model : String
  messages : List SonarMsg
  max_tokens : Nat
  temperature : ℚ

/-- An HTTP response as the code observes it: a status code and the parsed
JSON body. -/
structure HttpResp where
  status : Nat
  json : Json

/-- The data dict of lines 41-46 for a given prompt. -/
def sonarRequestBody (prompt : String) : SonarBody :=
  ⟨"sonar", [⟨"user", prompt⟩], 500, 7/10⟩

/-- response.raise_for_status() of line 48: the requests library raises
HTTPError exactly for client-error and server-error status codes. -/
def raise_for_status (status : Nat) : Except String Unit :=
  if 400 ≤ status ∧ status < 600 then
    Except.error ("HTTPError: status " ++ toString status)
  else
    Except.ok ()

/-- Lines 34-49 of main.py: the completion client. The HTTP transport is an
oracle from request body to response; the list of bodies sent is returned so
that single-request behaviour (no retry) is statable. -/
def call_sonar_api (prompt : String) (post : SonarBody → HttpResp) :
    List SonarBody × Except String String :=
  let data := sonarRequestBody prompt
  let response := post data
  ([data], do
    raise_for_status response.status
    let choices ← jsonField response.json "choices"
    let first ← jsonIndex choices 0
    let message ← jsonField first "message"
    jsonString (← jsonField message "content"))

/-- A response body carrying a completion text t at choices[0].message.content. -/
def goodSonarJson (t : String) : Json :=
  Json.obj [("choices", Json.arr [Json.obj [("message", Json.obj [("content", Json.str t)])]])]

/-- Concrete oracles used in witnesses. -/
def okSearch : Provider := fun _ => Except.ok "RESULT"

def okSonar : Provider := fun _ => Except.ok "ANSWER"

def failSearch : Provider := fun _ => Except.error "search failed"

def failSonar : Provider := fun _ => Except.error "boom"

def okPost : SonarBody → HttpResp := fun _ => ⟨200, goodSonarJson "ANSWER"⟩

def capitalQ : String := "What is the capital of France?"

/-! ## Helper lemmas -/

theorem startsWithList_iff (n h : List Char) : startsWithList n h = true ↔ n <+: h := by
  induction n generalizing h with
  | nil => simp [startsWithList]
  | cons a as ih =>
    cases h with
    | nil => simp [startsWithList]
    | cons b bs =>
      simp [startsWithList, List.cons_prefix_cons, ih, Bool.and_eq_true, beq_iff_eq]

theorem isSubstringOf_iff (n h : List Char) : isSubstringOf n h = true ↔ n <:+: h := by
  induction h with
  | nil => simp [isSubstringOf, List.isEmpty_iff]
  | cons c rest ih =>
    simp [isSubstringOf, Bool.or_eq_true, startsWithList_iff, ih, List.infix_cons_iff]

theorem is_casual_iff (q : String) :
    is_casual q = true ↔ ∃ w ∈ casual_keywords, w.data <:+: (pyLower q).data := by
  simp [is_casual, strIn, List.any_eq_true, isSubstringOf_iff]

theorem is_casual_eq_false (q : String)
    (hn : ¬ ∃ w ∈ casual_keywords, w.data <:+: (pyLower q).data) :
    is_casual q = false := by
  cases hq : is_casual q with
  | false => rfl
  | true => exact absurd ((is_casual_iff q).mp hq) hn

theorem coerce_userDict (c : String) : coerceMsg (userDict c) = Msg.human c := rfl

theorem coerce_assistantDict (c : String) : coerceMsg (assistantDict c) = Msg.ai c := rfl

/-! ## Claim theorems -/

/-- C4: the Query Classifier returns true for a string iff its lowercased form
contains at least one of the seven literal substrings hi, hello, how are you,
what-apostrophe-s up, hey, joke, python; and the empty string classifies as
false. -/
theorem classifier_keyword_iff :
    (∀ q : String, is_casual q = true ↔
      ∃ w ∈ (["hi", "hello", "how are you",
              "what" ++ String.singleton apostrophe ++ "s up",
              "hey", "joke", "python"] : List String),
        w.data <:+: (pyLower q).data)
    ∧ is_casual "" = false := by
  constructor
  · intro q
    exact is_casual_iff q
  · rfl

/-- C4 witness: the iff evaluated at hello (true) and the empty string. -/
theorem classifier_keyword_iff_witness :
    is_casual "hello" = true ∧ is_casual "" = false :=
  ⟨(classifier_keyword_iff.1 "hello").mpr (by decide), classifier_keyword_iff.2⟩

/-- C5: for a user text that contains a casual keyword (case-insensitively),
the dispatch function makes exactly one provider call, to the Completion
Client with the raw user text, and never calls the Search Provider; in
particular the classifier accepts hello. -/
theorem casual_skips_search (u : String) (se : Bool) (sp so : Provider)
    (hc : ∃ w ∈ casual_keywords, w.data <:+: (pyLower u).data) :
    (chatbot [Msg.human u] se sp so).1 = [ProviderCall.sonarCall u]
    ∧ is_casual "hello" = true := by
  have hcas : is_casual u = true := (is_casual_iff u).mpr hc
  refine ⟨?_, by rfl⟩
  cases hso : so u with
  | error e => simp [chatbot, extractUserText, hcas, hso]
  | ok r => simp [chatbot, extractUserText, hcas, hso]

/-- C5 witness: input hello with both providers healthy. -/
theorem casual_skips_search_witness :
    (chatbot [Msg.human "hello"] true okSearch okSonar).1 = [ProviderCall.sonarCall "hello"]
    ∧ is_casual "hello" = true :=
  casual_skips_search "hello" true okSearch okSonar (by decide)

/-- C2: when the Search Provider raises in the non-casual branch, the dispatch
function itself performs no handling: the exception propagates out of chatbot
unchanged (and the Completion Client is never reached). -/
theorem search_error_propagates (u e : String) (sp so : Provider)
    (hni : is_casual u = false) (hsp : sp u = Except.error e) :
    chatbot [Msg.human u] true sp so
      = ([ProviderCall.searchCall u], Except.error e) := by
  simp [chatbot, extractUserText, hni, hsp]

/-- C2 witness: a non-casual question with a failing search provider. -/
theorem search_error_propagates_witness :
    chatbot [Msg.human capitalQ] true failSearch okSonar
      = ([ProviderCall.searchCall capitalQ], Except.error "search failed") :=
  search_error_propagates capitalQ "search failed" failSearch okSonar (by rfl) rfl

/-- C6: for a user text containing no casual keyword, with search enabled, the
dispatch function calls the Search Provider exactly once with that text and
then the Completion Client once, and the composed prompt contains both the
literal search result and the literal question as substrings. -/
theorem informational_search_then_sonar (u r : String) (sp so : Provider)
    (hni : ¬ ∃ w ∈ casual_keywords, w.data <:+: (pyLower u).data)
    (hsp : sp u = Except.ok r) :
    (chatbot [Msg.human u] true sp so).1
      = [ProviderCall.searchCall u, ProviderCall.sonarCall (SYSTEM_PROMPT r u)]
    ∧ r.data <:+: (SYSTEM_PROMPT r u).data
    ∧ u.data <:+: (SYSTEM_PROMPT r u).data := by
  have hcas : is_casual u = false := is_casual_eq_false u hni
  refine ⟨?_, ?_, ?_⟩
  · cases hso : so (SYSTEM_PROMPT r u) with
    | error e => simp [chatbot, extractUserText, hcas, hsp, hso]
    | ok t => simp [chatbot, extractUserText, hcas, hsp, hso]
  · exact ⟨("You are an Expert Web Research Assistant.\n\nSEARCH RESULTS: ").data,
      ("\n\nUSER QUESTION: " ++ u ++
       "\n\nProvide a well-structured, informative response based on the search results.").data,
      by simp [SYSTEM_PROMPT, String.data_append]⟩
  · exact ⟨("You are an Expert Web Research Assistant.\n\nSEARCH RESULTS: " ++ r ++
       "\n\nUSER QUESTION: ").data,
      ("\n\nProvide a well-structured, informative response based on the search results.").data,
      by simp [SYSTEM_PROMPT, String.data_append]⟩

/-- C6 witness: the capital-of-France question with a healthy search provider. -/
theorem informational_search_then_sonar_witness :
    (chatbot [Msg.human capitalQ] true okSearch okSonar).1
      = [ProviderCall.searchCall capitalQ,
         ProviderCall.sonarCall (SYSTEM_PROMPT "RESULT" capitalQ)]
    ∧ ("RESULT" : String).data <:+: (SYSTEM_PROMPT "RESULT" capitalQ).data
    ∧ capitalQ.data <:+: (SYSTEM_PROMPT "RESULT" capitalQ).data :=
  informational_search_then_sonar capitalQ "RESULT" okSearch okSonar (by decide) rfl

/-- C1: counterexample evaluation. With the search toggle off and a non-casual
question, the graph invocation still calls the Search Provider: the extra
search_enabled key of the invoke input is not a channel of the State schema,
so it is dropped by the input mapping and the node runs with the Python
default search_enabled=True — the toggle never reaches the dispatch function.
The last conjunct shows the toggle argument has no effect at all. -/
theorem toggle_off_still_searches :
    (graph_invoke capitalQ false okSearch okSonar).1
      = [ProviderCall.searchCall capitalQ,
         ProviderCall.sonarCall (SYSTEM_PROMPT "RESULT" capitalQ)]
    ∧ is_casual capitalQ = false
    ∧ ∀ (u : String) (se : Bool) (sp so : Provider),
        graph_invoke u se sp so = graph_invoke u true sp so := by
  refine ⟨by rfl, by rfl, fun u se sp so => rfl⟩

theorem coerce_human (c : String) : coerceMsg (Msg.human c) = Msg.human c := rfl

/-- C3: an exception from either provider propagating out of the graph call is
caught by the turn handler, converted to the banner string followed by the
exception text, and appended as the assistant entry; the handler is total, so
the turn never crashes the session. -/
theorem turn_error_caught (h : List Msg) (u e : String) (se : Bool) (sp so : Provider)
    (he : (graph_invoke u se sp so).2 = Except.error e) :
    (turn_handler h u se sp so).2
      = h ++ [userDict u, assistantDict (errorBanner ++ e)]
    ∧ ("Sorry, I encountered an error:").data <+: (errorBanner ++ e).data := by
  constructor
  · simp [turn_handler, he]
  · refine ⟨(" " ++ e).data, ?_⟩
    rw [String.data_append, String.data_append, ← List.append_assoc]
    rfl

/-- C3 witness: a failing completion client on a non-casual question. -/
theorem turn_error_caught_witness :
    (turn_handler [] "q" true okSearch failSonar).2
      = [userDict "q", assistantDict (errorBanner ++ "boom")]
    ∧ ("Sorry, I encountered an error:").data <+: (errorBanner ++ "boom").data := by
  have := turn_error_caught [] "q" "boom" true okSearch failSonar rfl
  simpa using this

/-- C8: every turn, successful or failed, appends exactly one user entry and
then exactly one assistant entry, so the session history grows by exactly 2. -/
theorem turn_appends_two (h : List Msg) (u : String) (se : Bool) (sp so : Provider) :
    ∃ a, (turn_handler h u se sp so).2 = h ++ [userDict u, assistantDict a]
    ∧ (turn_handler h u se sp so).2.length = h.length + 2 := by
  rcases hg : (graph_invoke u se sp so).2 with e | msgs
  · refine ⟨errorBanner ++ e, ?_, ?_⟩ <;> simp [turn_handler, hg]
  · rcases hl : msgs.getLast? with _ | m
    · refine ⟨errorBanner ++ indexErrorMsg, ?_, ?_⟩ <;> simp [turn_handler, hg, hl]
    · rcases hr : read_ai_response m with e | resp
      · refine ⟨errorBanner ++ e, ?_, ?_⟩ <;> simp [turn_handler, hg, hl, hr]
      · refine ⟨resp, ?_, ?_⟩ <;> simp [turn_handler, hg, hl, hr]

/-- C8 witness: one successful turn from the empty history. -/
theorem turn_appends_two_witness :
    ∃ a, (turn_handler [] "hello" true okSearch okSonar).2
      = [userDict "hello", assistantDict a]
    ∧ (turn_handler [] "hello" true okSearch okSonar).2.length = 2 := by
  simpa using turn_appends_two [] "hello" true okSearch okSonar

/-- C9: the dispatch function raises an IndexError on an empty message list,
while the user-text extraction itself is total over the message shapes: a
HumanMessage yields its content, a dict yields its content field or the empty
string, anything else its str() image. -/
theorem empty_state_raises_extraction_total :
    (∀ (se : Bool) (sp so : Provider),
        chatbot [] se sp so = ([], Except.error indexErrorMsg))
    ∧ (∀ c, extractUserText (Msg.human c) = c)
    ∧ (∀ fields, extractUserText (Msg.dict fields) = (fields.lookup "content").getD "")
    ∧ (∀ c, extractUserText (Msg.ai c) = pyStr (Msg.ai c))
    ∧ (∀ s, extractUserText (Msg.other s) = s) :=
  ⟨fun _ _ _ => rfl, fun _ => rfl, fun _ => rfl, fun _ => rfl, fun _ => rfl⟩

/-- C9 witness: the empty state raises; a dict without content extracts to "". -/
theorem empty_state_raises_extraction_total_witness :
    chatbot [] true okSearch okSonar = ([], Except.error indexErrorMsg)
    ∧ extractUserText (Msg.dict [("role", "user")]) = "" :=
  ⟨empty_state_raises_extraction_total.1 true okSearch okSonar,
   by simpa using empty_state_raises_extraction_total.2.2.1 [("role", "user")]⟩

/-- C10: on success the dispatch function both appends the assistant dict to
its input message list (the in-place mutation of line 83) and returns the same
dict as its update (line 84); after the add_messages merge of the graph, the
assistant message therefore appears twice in the graph state. -/
theorem inplace_append_delta_duplicate :
    (∀ (msgs : List Msg) (se : Bool) (sp so : Provider) (mutated delta : List Msg),
       (chatbot msgs se sp so).2 = Except.ok (mutated, delta) →
       ∃ resp, mutated = msgs ++ [assistantDict resp] ∧ delta = [assistantDict resp])
    ∧ (∀ (u : String) (se : Bool) (sp so : Provider) (gm : List Msg),
       (graph_invoke u se sp so).2 = Except.ok gm →
       ∃ resp, gm = [Msg.human u, Msg.ai resp, Msg.ai resp]) := by
  have part1 : ∀ (msgs : List Msg) (se : Bool) (sp so : Provider) (mutated delta : List Msg),
      (chatbot msgs se sp so).2 = Except.ok (mutated, delta) →
      ∃ resp, mutated = msgs ++ [assistantDict resp] ∧ delta = [assistantDict resp] := by
    intro msgs se sp so mutated delta hok
    rcases hm : msgs.getLast? with _ | last
    · simp [chatbot, hm] at hok
    · cases hcb : (is_casual (extractUserText last) || !se) with
      | true =>
        rcases hso : so (extractUserText last) with e | resp
        · simp [chatbot, hm, hcb, hso] at hok
        · simp [chatbot, hm, hcb, hso] at hok
          exact ⟨resp, hok.1.symm, hok.2.symm⟩
      | false =>
        rcases hsp : sp (extractUserText last) with e | r
        · simp [chatbot, hm, hcb, hsp] at hok
        · rcases hso : so (SYSTEM_PROMPT r (extractUserText last)) with e | resp
          · simp [chatbot, hm, hcb, hsp, hso] at hok
          · simp [chatbot, hm, hcb, hsp, hso] at hok
            exact ⟨resp, hok.1.symm, hok.2.symm⟩
  refine ⟨part1, ?_⟩
  intro u se sp so gm hok
  simp only [graph_invoke, coerce_userDict] at hok
  rcases hr : (chatbot [Msg.human u] true sp so).2 with e | pr
  · rw [hr] at hok
    simp [Except.map] at hok
  · rw [hr] at hok
    obtain ⟨mutated, delta⟩ := pr
    obtain ⟨resp, hmut, hdel⟩ := part1 _ _ _ _ _ _ hr
    subst hmut
    subst hdel
    simp only [Except.map, Except.ok.injEq] at hok
    refine ⟨resp, ?_⟩
    rw [← hok]
    simp [coerce_human, coerce_assistantDict]

/-- C10 witness: a successful informational turn duplicates the assistant
message in the graph result. -/
theorem inplace_append_delta_duplicate_witness :
    ∃ gm, (graph_invoke "q" true okSearch okSonar).2 = Except.ok gm
    ∧ ∃ resp, gm = [Msg.human "q", Msg.ai resp, Msg.ai resp] :=
  ⟨_, rfl, inplace_append_delta_duplicate.2 "q" true okSearch okSonar _ rfl⟩

/-- C7: the completion client sends exactly one request whose body has the
fixed shape (model sonar, a single user message holding the prompt, max_tokens
500, temperature 0.7); on a success status it returns the text at
choices[0].message.content of the response JSON, and on a client- or
server-error status raise_for_status raises. -/
theorem sonar_api_shape (prompt : String) (status : Nat) (j : Json)
    (post : SonarBody → HttpResp)
    (hpost : post (sonarRequestBody prompt) = ⟨status, j⟩) :
    (call_sonar_api prompt post).1 = [⟨"sonar", [⟨"user", prompt⟩], 500, 7/10⟩]
    ∧ (∀ t, status = 200 → j = goodSonarJson t →
        (call_sonar_api prompt post).2 = Except.ok t)
    ∧ (400 ≤ status → status < 600 →
        (call_sonar_api prompt post).2
          = Except.error ("HTTPError: status " ++ toString status)) := by
  refine ⟨rfl, ?_, ?_⟩
  · intro t h200 hj
    subst h200
    subst hj
    simp only [call_sonar_api]
    rw [hpost]
    rfl
  · intro h4 h6
    simp only [call_sonar_api]
    rw [hpost]
    simp only [raise_for_status]
    rw [if_pos ⟨h4, h6⟩]
    rfl

/-- C7 witness: a 200 response with a well-formed body. -/
theorem sonar_api_shape_witness :
    (call_sonar_api "Q" okPost).1 = [⟨"sonar", [⟨"user", "Q"⟩], 500, 7/10⟩]
    ∧ (call_sonar_api "Q" okPost).2 = Except.ok "ANSWER" :=
  ⟨(sonar_api_shape "Q" 200 (goodSonarJson "ANSWER") okPost rfl).1,
   (sonar_api_shape "Q" 200 (goodSonarJson "ANSWER") okPost rfl).2.1 "ANSWER" rfl rfl⟩

end AIChat
